import Mathlib

/-!
# Verification of the influx2aprs poll → transform → dedupe → transmit cycle

Shallow embedding of `cmd/influx2aprs/main.go`.  The program polls an
InfluxDB store once per interval, folds the returned rows into one
`aprs.Wx` observation, deduplicates on the row timestamp against the
process-wide `lastTime` variable, and transmits the observation over
APRS-IS.  Floating-point values are modelled as rationals, instants
(`time.Time`) as integers with `0` playing the role of Go's zero
instant.  Logging is not modelled; it has no effect on control flow.
-/

namespace Influx2Aprs

/-- Go's `math.Round`: round to the nearest integer, ties away from zero. -/
def mround (q : ℚ) : ℤ := if 0 ≤ q then ⌊q + 1/2⌋ else ⌈q - 1/2⌉

/-- Go's `int(x)` conversion applied to a `float64`: truncation toward zero. -/
def trunc (q : ℚ) : ℤ := if 0 ≤ q then ⌊q⌋ else ⌈q⌉

/-- Modelled from the spec: the external `aprs` library's `Wx.Zero` method
(not part of this repository) initializes every numeric sensor field of the
observation to a defined "unset" sentinel.  The concrete sentinel value is
private to that library; it is modelled here as a fixed constant. -/
def unsetSentinel : ℤ := -999999

/-- The observation record assembled each cycle (`aprs.Wx` as used by
`main.go`).  `Timestamp = 0` models Go's zero `time.Time`.  The Go field
`Type` (the free-text comment) is named `TypeStr` here because `Type` is
reserved in Lean. -/
structure Wx where
  Lat : ℚ
  Lon : ℚ
  TypeStr : String
  Timestamp : ℤ
  Temp : ℤ
  Humidity : ℤ
  SolarRad : ℤ
  WindDir : ℤ
  WindGust : ℤ
  WindSpeed : ℤ
deriving DecidableEq, Repr

/-- `wxData.Zero()` followed by Go's zero-valued `Timestamp`: numeric sensor
fields at the unset sentinel, everything else zero/empty
(`main.go` lines 102-103). -/
def Wx.Zero : Wx :=
  { Lat := 0
    Lon := 0
    TypeStr := ""
    Timestamp := 0
    Temp := unsetSentinel
    Humidity := unsetSentinel
    SolarRad := unsetSentinel
    WindDir := unsetSentinel
    WindGust := unsetSentinel
    WindSpeed := unsetSentinel }

/-- The configuration values the cycle reads (viper keys `lat`, `lon`,
`comment`); immutable for the process lifetime. -/
structure Config where
  lat : ℚ
  lon : ℚ
  comment : String
deriving DecidableEq, Repr

/-- The observation at the top of each cycle: zeroed, with location and
comment taken from config (`main.go` lines 102-106). -/
def initWx (cfg : Config) : Wx :=
  { Wx.Zero with Lat := cfg.lat, Lon := cfg.lon, TypeStr := cfg.comment }

/-- One row streamed back by the Influx query: field name, numeric value,
row timestamp (`result.Record().Field() / .Value() / .Time()`). -/
structure SampleTuple where
  field : String
  value : ℚ
  time : ℤ
deriving DecidableEq, Repr

/-- The `switch result.Record().Field()` dispatch of `main.go` lines 133-146:
per-field unit conversion into the observation.  A Go `switch` on strings is
a sequential chain of equality tests; unknown field names fall through with
no effect. -/
def applyField (wx : Wx) (t : SampleTuple) : Wx :=
  if t.field = "temperature_C" then
    { wx with Temp := mround (t.value * 1.8 + 32) }
  else if t.field = "humidity" then
    { wx with Humidity := mround t.value }
  else if t.field = "light_lux" then
    { wx with SolarRad := trunc ((mround t.value : ℚ) / 126) }
  else if t.field = "wind_dir_deg" then
    { wx with WindDir := mround t.value }
  else if t.field = "wind_max_m_s" then
    { wx with WindGust := mround (t.value * 2.23694) }
  else if t.field = "wind_avg_m_s" then
    { wx with WindSpeed := mround (t.value * 2.23694) }
  else
    wx

/-- The `for result.Next()` loop of `main.go` lines 123-147.  State threaded
through: the observation being assembled and the `lastTime` variable.
`none` models `continue LOOP` (the early exit on a duplicate or zero first
timestamp); `some (wx, lt)` is the state after the loop runs to completion.
On the first row, while `wx.Timestamp` is still zero, the row's time is
stored, checked against `lastTime` and against zero, and on acceptance
`lastTime` is immediately overwritten before the field dispatch runs. -/
def processTuples (lastTime : ℤ) (wx : Wx) : List SampleTuple → Option (Wx × ℤ)
  | [] => some (wx, lastTime)
  | t :: rest =>
    if wx.Timestamp = 0 then
      let wx1 : Wx := { wx with Timestamp := t.time }
      if wx1.Timestamp = lastTime ∨ wx1.Timestamp = 0 then
        none
      else
        processTuples wx1.Timestamp (applyField wx1 t) rest
    else
      processTuples lastTime (applyField wx t) rest

/-- The outcome of one query: rows, or an error (`err != nil` at line 122). -/
inductive QueryResult where
  | rows (tuples : List SampleTuple)
  | queryError
deriving DecidableEq, Repr

/-- The externally observable outcome of one loop iteration.  `sent` is the
observation handed to `f.SendIS`, when any; `newLastTime` is the value of
the `lastTime` variable after the iteration; `exited` records whether the
process called `os.Exit(0)` (the only exit inside the loop). -/
structure CycleOutcome where
  sent : Option Wx
  newLastTime : ℤ
  exited : Bool
deriving DecidableEq, Repr

/-- One iteration of the `LOOP` body of `main.go` lines 101-177, as a
function of the prior `lastTime`, the query outcome, and whether the
APRS-IS send succeeds (`sendOk`; the send is an external boundary).
A query error only logs, leaving the zeroed observation in place; the
post-loop `if !wxData.Timestamp.IsZero()` then suppresses transmission.
After a successful send, the process exits iff the `--once` flag is set;
a failed send logs and continues. -/
def cycle (cfg : Config) (once : Bool) (lastTime : ℤ) (q : QueryResult)
    (sendOk : Bool) : CycleOutcome :=
  let wx0 := initWx cfg
  let afterLoop : Option (Wx × ℤ) :=
    match q with
    | .queryError => some (wx0, lastTime)
    | .rows ts => processTuples lastTime wx0 ts
  match afterLoop with
  | none => { sent := none, newLastTime := lastTime, exited := false }
  | some (wx, lt) =>
    if wx.Timestamp = 0 then
      { sent := none, newLastTime := lt, exited := false }
    else
      { sent := some wx, newLastTime := lt, exited := sendOk && once }

/-- The scheduler's unbounded loop, restricted to an arbitrary finite prefix
of per-cycle inputs (query outcome and send result for each tick).  Returns
the final `lastTime` and whether the process exited during the prefix. -/
def runLoop (cfg : Config) (once : Bool) : ℤ → List (QueryResult × Bool) → ℤ × Bool
  | lastTime, [] => (lastTime, false)
  | lastTime, (q, s) :: rest =>
    let out := cycle cfg once lastTime q s
    if out.exited then (out.newLastTime, true)
    else runLoop cfg once out.newLastTime rest

/-- Celsius → Fahrenheit conversion used for `temperature_C`. -/
def tempConv (c : ℚ) : ℤ := mround (c * 1.8 + 32)

/-- Percent-humidity conversion used for `humidity`: round to integer. -/
def humConv (v : ℚ) : ℤ := mround v

/-- Lux → solar irradiance conversion used for `light_lux`: round the lux
value, divide by 126 as floats, then truncate to an integer. -/
def solarConv (lux : ℚ) : ℤ := trunc ((mround lux : ℚ) / 126)

/-- Wind-direction conversion used for `wind_dir_deg`: round to degrees. -/
def dirConv (d : ℚ) : ℤ := mround d

/-- Meters/second → miles/hour conversion used for `wind_max_m_s` and
`wind_avg_m_s`. -/
def windConv (mps : ℚ) : ℤ := mround (mps * 2.23694)

/-- The value of the last tuple in the list bearing the given field name,
ignoring tuple timestamps; `none` when no tuple carries the name. -/
def lastVal (name : String) : List SampleTuple → Option ℚ
  | [] => none
  | t :: ts =>
    match lastVal name ts with
    | some v => some v
    | none => if t.field = name then some t.value else none

/-- A concrete configuration used by witnesses. -/
def sampleConfig : Config := { lat := 40.1, lon := -77.2, comment := "wx" }

/-- The field dispatch never touches the observation's timestamp. -/
theorem applyField_Timestamp (wx : Wx) (t : SampleTuple) :
    (applyField wx t).Timestamp = wx.Timestamp := by
  unfold applyField
  repeat' split
  all_goals rfl

/-- Folding the field dispatch over any tuple list preserves the timestamp. -/
theorem foldl_Timestamp (ts : List SampleTuple) (wx : Wx) :
    (ts.foldl applyField wx).Timestamp = wx.Timestamp := by
  induction ts generalizing wx with
  | nil => rfl
  | cons t rest ih => simpa [List.foldl_cons, applyField_Timestamp] using ih (applyField wx t)

/-- Once the observation's timestamp is non-zero, the remaining loop is a
plain fold of the field dispatch and `lastTime` is no longer touched. -/
theorem processTuples_of_ne_zero (lastTime : ℤ) (wx : Wx) (h : wx.Timestamp ≠ 0)
    (ts : List SampleTuple) :
    processTuples lastTime wx ts = some (ts.foldl applyField wx, lastTime) := by
  induction ts generalizing wx with
  | nil => rfl
  | cons t rest ih =>
    rw [processTuples, if_neg h, List.foldl_cons]
    exact ih (applyField wx t) (by rwa [applyField_Timestamp])

/-- Last-occurrence characterization of the fold: a getter that one field
name sets and every other name leaves alone ends up holding the conversion
of the last tuple bearing that name (or its initial value when none does). -/
theorem foldl_lastVal (g : Wx → ℤ) (name : String) (conv : ℚ → ℤ)
    (hset : ∀ wx t, t.field = name → g (applyField wx t) = conv t.value)
    (hskip : ∀ wx t, t.field ≠ name → g (applyField wx t) = g wx)
    (ts : List SampleTuple) (wx : Wx) :
    g (ts.foldl applyField wx) = (lastVal name ts).elim (g wx) conv := by
  induction ts generalizing wx with
  | nil => rfl
  | cons t rest ih =>
    rw [List.foldl_cons, ih (applyField wx t), lastVal]
    cases hl : lastVal name rest with
    | some v => simp [hl]
    | none =>
      by_cases hf : t.field = name
      · simp [hl, hf, hset wx t hf]
      · simp [hl, hf, hskip wx t hf]

theorem applyField_Temp_set (wx : Wx) (t : SampleTuple) (h : t.field = "temperature_C") :
    (applyField wx t).Temp = tempConv t.value := by
  rw [applyField, if_pos h]; rfl

theorem applyField_Temp_skip (wx : Wx) (t : SampleTuple) (h : t.field ≠ "temperature_C") :
    (applyField wx t).Temp = wx.Temp := by
  rw [applyField, if_neg h]
  repeat' split
  all_goals rfl

theorem applyField_Humidity_set (wx : Wx) (t : SampleTuple) (h : t.field = "humidity") :
    (applyField wx t).Humidity = humConv t.value := by
  rw [applyField, if_neg (by rw [h]; decide), if_pos h]; rfl

theorem applyField_Humidity_skip (wx : Wx) (t : SampleTuple) (h : t.field ≠ "humidity") :
    (applyField wx t).Humidity = wx.Humidity := by
  unfold applyField
  repeat' split
  all_goals simp_all

theorem applyField_SolarRad_set (wx : Wx) (t : SampleTuple) (h : t.field = "light_lux") :
    (applyField wx t).SolarRad = solarConv t.value := by
  rw [applyField, if_neg (by rw [h]; decide), if_neg (by rw [h]; decide), if_pos h]; rfl

theorem applyField_SolarRad_skip (wx : Wx) (t : SampleTuple) (h : t.field ≠ "light_lux") :
    (applyField wx t).SolarRad = wx.SolarRad := by
  unfold applyField
  repeat' split
  all_goals simp_all

theorem applyField_WindDir_set (wx : Wx) (t : SampleTuple) (h : t.field = "wind_dir_deg") :
    (applyField wx t).WindDir = dirConv t.value := by
  rw [applyField, if_neg (by rw [h]; decide), if_neg (by rw [h]; decide),
    if_neg (by rw [h]; decide), if_pos h]; rfl

theorem applyField_WindDir_skip (wx : Wx) (t : SampleTuple) (h : t.field ≠ "wind_dir_deg") :
    (applyField wx t).WindDir = wx.WindDir := by
  unfold applyField
  repeat' split
  all_goals simp_all

theorem applyField_WindGust_set (wx : Wx) (t : SampleTuple) (h : t.field = "wind_max_m_s") :
    (applyField wx t).WindGust = windConv t.value := by
  rw [applyField, if_neg (by rw [h]; decide), if_neg (by rw [h]; decide),
    if_neg (by rw [h]; decide), if_neg (by rw [h]; decide), if_pos h]; rfl

theorem applyField_WindGust_skip (wx : Wx) (t : SampleTuple) (h : t.field ≠ "wind_max_m_s") :
    (applyField wx t).WindGust = wx.WindGust := by
  unfold applyField
  repeat' split
  all_goals simp_all

theorem applyField_WindSpeed_set (wx : Wx) (t : SampleTuple) (h : t.field = "wind_avg_m_s") :
    (applyField wx t).WindSpeed = windConv t.value := by
  rw [applyField, if_neg (by rw [h]; decide), if_neg (by rw [h]; decide),
    if_neg (by rw [h]; decide), if_neg (by rw [h]; decide), if_neg (by rw [h]; decide),
    if_pos h]; rfl

theorem applyField_WindSpeed_skip (wx : Wx) (t : SampleTuple) (h : t.field ≠ "wind_avg_m_s") :
    (applyField wx t).WindSpeed = wx.WindSpeed := by
  unfold applyField
  repeat' split
  all_goals simp_all

/-- Truncating the rational quotient of an integer by a positive natural
agrees with truncated (toward-zero) integer division. -/
theorem trunc_intCast_div (m : ℤ) (d : ℕ) (hd : d ≠ 0) :
    trunc ((m : ℚ) / (d : ℚ)) = m.tdiv d := by
  have hd0 : (0 : ℚ) < (d : ℚ) := by exact_mod_cast Nat.pos_of_ne_zero hd
  rcases le_or_lt 0 m with h | h
  · have hq : (0 : ℚ) ≤ (m : ℚ) / (d : ℚ) := by positivity
    rw [trunc, if_pos hq, Rat.floor_intCast_div_natCast,
      Int.tdiv_eq_ediv h (by exact_mod_cast Nat.zero_le d)]
  · have hq : ¬ (0 : ℚ) ≤ (m : ℚ) / (d : ℚ) := by
      rw [not_le]
      apply div_neg_of_neg_of_pos _ hd0
      exact_mod_cast h
    rw [trunc, if_neg hq,
      show ((m : ℚ) / (d : ℚ)) = -(((-m : ℤ) : ℚ) / (d : ℚ)) by push_cast; ring,
      Int.ceil_neg, Rat.floor_intCast_div_natCast,
      show m.tdiv (d : ℤ) = -((-m).tdiv (d : ℤ)) by rw [Int.neg_tdiv]; ring,
      Int.tdiv_eq_ediv (by omega) (by exact_mod_cast Nat.zero_le d)]

/-- An accepted first tuple (non-zero time, distinct from `lastTime`) makes
the loop run to completion: the observation is the fold of the dispatch over
all tuples and `lastTime` is committed to the first tuple's time. -/
theorem processTuples_cons_accept (lastTime : ℤ) (wx : Wx) (h0 : wx.Timestamp = 0)
    (t : SampleTuple) (rest : List SampleTuple)
    (ht : t.time ≠ 0) (hne : t.time ≠ lastTime) :
    processTuples lastTime wx (t :: rest) =
      some (rest.foldl applyField (applyField { wx with Timestamp := t.time } t), t.time) := by
  rw [processTuples, if_pos h0]
  have hcond : ¬ (({ wx with Timestamp := t.time } : Wx).Timestamp = lastTime ∨
      ({ wx with Timestamp := t.time } : Wx).Timestamp = 0) := by
    show ¬ (t.time = lastTime ∨ t.time = 0)
    simp [ht, hne]
  rw [if_neg hcond]
  exact processTuples_of_ne_zero t.time _ (by rw [applyField_Timestamp]; exact ht) rest

/-- Whenever the loop completes with a non-zero observation timestamp, the
returned `lastTime` equals that timestamp. -/
theorem processTuples_commit (lastTime : ℤ) (wx0 : Wx) (h0 : wx0.Timestamp = 0)
    (ts : List SampleTuple) (wx : Wx) (lt : ℤ)
    (h : processTuples lastTime wx0 ts = some (wx, lt)) (hne : wx.Timestamp ≠ 0) :
    lt = wx.Timestamp := by
  cases ts with
  | nil =>
    rw [processTuples] at h
    obtain ⟨rfl, rfl⟩ : wx0 = wx ∧ lastTime = lt := by
      constructor <;> [exact congrArg Prod.fst (Option.some.inj h);
        exact congrArg Prod.snd (Option.some.inj h)]
    exact absurd h0 hne
  | cons t rest =>
    by_cases ht : t.time = 0
    · rw [processTuples, if_pos h0, if_pos (Or.inr ht)] at h
      exact absurd h (by simp)
    · by_cases htl : t.time = lastTime
      · rw [processTuples, if_pos h0, if_pos (Or.inl htl)] at h
        exact absurd h (by simp)
      · rw [processTuples_cons_accept lastTime wx0 h0 t rest ht htl] at h
        obtain ⟨hwx, hlt⟩ : rest.foldl applyField
            (applyField { wx0 with Timestamp := t.time } t) = wx ∧ t.time = lt := by
          constructor <;> [exact congrArg Prod.fst (Option.some.inj h);
            exact congrArg Prod.snd (Option.some.inj h)]
        rw [← hwx, foldl_Timestamp, applyField_Timestamp, ← hlt]

/-- Full characterization of an accepted cycle: the transmitted observation,
the committed `lastTime`, and the exit condition. -/
theorem cycle_rows_accept (cfg : Config) (once : Bool) (lastTime : ℤ) (sendOk : Bool)
    (tup : SampleTuple) (rest : List SampleTuple)
    (ht : tup.time ≠ 0) (hne : tup.time ≠ lastTime) :
    cycle cfg once lastTime (.rows (tup :: rest)) sendOk =
      { sent := some (rest.foldl applyField
          (applyField { initWx cfg with Timestamp := tup.time } tup)),
        newLastTime := tup.time,
        exited := sendOk && once } := by
  have hfold : (rest.foldl applyField
      (applyField { initWx cfg with Timestamp := tup.time } tup)).Timestamp = tup.time := by
    rw [foldl_Timestamp, applyField_Timestamp]
  simp only [cycle,
    processTuples_cons_accept lastTime (initWx cfg) rfl tup rest ht hne]
  rw [if_neg (by rw [hfold]; exact ht)]

/-- A cycle whose `--once` flag is off never exits the process. -/
theorem cycle_not_exited_of_not_once (cfg : Config) (lastTime : ℤ) (q : QueryResult)
    (sendOk : Bool) : (cycle cfg false lastTime q sendOk).exited = false := by
  cases q with
  | queryError => simp [cycle, initWx, Wx.Zero]
  | rows ts =>
    rcases hp : processTuples lastTime (initWx cfg) ts with _ | ⟨wx', lt⟩
    · simp [cycle, hp]
    · by_cases hz : wx'.Timestamp = 0 <;> simp [cycle, hp, hz]

/-- With the `--once` flag off, no finite prefix of the scheduler loop ever
exits the process. -/
theorem runLoop_no_exit (cfg : Config) (inputs : List (QueryResult × Bool)) (lastTime : ℤ) :
    (runLoop cfg false lastTime inputs).2 = false := by
  induction inputs generalizing lastTime with
  | nil => rfl
  | cons p rest ih =>
    obtain ⟨q, s⟩ := p
    rw [runLoop]
    simp only [cycle_not_exited_of_not_once cfg lastTime q s, if_neg Bool.false_ne_true]
    exact ih _

/-- Claim C1: when the first tuple's instant equals `LastObservedTimestamp`
or is the zero instant, the cycle is abandoned immediately: no observation
is transmitted, `lastTime` is unchanged, the process does not exit, and the
outcome is the same for every possible list of remaining tuples (so none of
them is processed). -/
theorem c1_first_tuple_duplicate_or_zero_aborts (cfg : Config) (once : Bool)
    (lastTime : ℤ) (sendOk : Bool) (tup : SampleTuple) (rest : List SampleTuple)
    (h : tup.time = lastTime ∨ tup.time = 0) :
    cycle cfg once lastTime (.rows (tup :: rest)) sendOk =
      { sent := none, newLastTime := lastTime, exited := false } := by
  rcases h with h | h <;> simp [cycle, processTuples, initWx, Wx.Zero, h]

/-- Claim C1 witness: a duplicate first timestamp (7 = `lastTime`) aborts a
concrete cycle even though a fresh temperature row follows. -/
theorem c1_witness :
    cycle sampleConfig false 7 (.rows [⟨"humidity", 50, 7⟩, ⟨"temperature_C", 20, 8⟩]) true =
      { sent := none, newLastTime := 7, exited := false } :=
  c1_first_tuple_duplicate_or_zero_aborts sampleConfig false 7 true
    ⟨"humidity", 50, 7⟩ [⟨"temperature_C", 20, 8⟩] (Or.inl rfl)

/-- Claim C2: the tuple sequence
`[(temperature_C, 20.0, t1), (humidity, 55.3, t1), (wind_avg_m_s, 5.0, t1)]`
with `t1` non-zero and distinct from `lastTime` commits
`LastObservedTimestamp = t1` and hands the transmitter an observation with
`Temp = 68`, `Humidity = 55`, `WindSpeed = 11`, every other numeric field
still at the unset sentinel. -/
theorem c2_scenario_commit_and_convert (cfg : Config) (once : Bool) (lastTime : ℤ)
    (sendOk : Bool) (t1 : ℤ) (h0 : t1 ≠ 0) (hne : t1 ≠ lastTime) :
    cycle cfg once lastTime
      (.rows [⟨"temperature_C", 20, t1⟩, ⟨"humidity", 55.3, t1⟩, ⟨"wind_avg_m_s", 5, t1⟩])
      sendOk =
    { sent := some
        { Lat := cfg.lat, Lon := cfg.lon, TypeStr := cfg.comment,
          Timestamp := t1, Temp := 68, Humidity := 55, SolarRad := unsetSentinel,
          WindDir := unsetSentinel, WindGust := unsetSentinel, WindSpeed := 11 },
      newLastTime := t1, exited := sendOk && once } := by
  rw [cycle_rows_accept cfg once lastTime sendOk _ _ h0 hne]
  have h68 : mround ((20 : ℚ) * 1.8 + 32) = 68 := by norm_num [mround]
  have h55 : mround ((55.3 : ℚ)) = 55 := by norm_num [mround]
  have h11 : mround ((5 : ℚ) * 2.23694) = 11 := by norm_num [mround]
  simp [List.foldl, applyField, initWx, Wx.Zero, h68, h55, h11]

/-- Claim C2 witness: the scenario at `t1 = 1`, `lastTime = 0`. -/
theorem c2_witness :
    cycle sampleConfig true 0
      (.rows [⟨"temperature_C", 20, 1⟩, ⟨"humidity", 55.3, 1⟩, ⟨"wind_avg_m_s", 5, 1⟩]) true =
    { sent := some
        { Lat := sampleConfig.lat, Lon := sampleConfig.lon, TypeStr := sampleConfig.comment,
          Timestamp := 1, Temp := 68, Humidity := 55, SolarRad := unsetSentinel,
          WindDir := unsetSentinel, WindGust := unsetSentinel, WindSpeed := 11 },
      newLastTime := 1, exited := true } :=
  c2_scenario_commit_and_convert sampleConfig true 0 true 1 (by decide) (by decide)

/-- Claim C3: whenever a cycle hands an observation to the transmitter, that
observation's timestamp is non-zero and `lastTime` is committed to it for
every possible send result — in particular a failed send (`sendOk' = false`)
does not roll the commit back. -/
theorem c3_commit_before_send_no_rollback (cfg : Config) (once : Bool) (lastTime : ℤ)
    (q : QueryResult) (sendOk : Bool) (wx : Wx)
    (h : (cycle cfg once lastTime q sendOk).sent = some wx) :
    wx.Timestamp ≠ 0 ∧
    ∀ sendOk', (cycle cfg once lastTime q sendOk').newLastTime = wx.Timestamp := by
  cases q with
  | queryError => simp [cycle, initWx, Wx.Zero] at h
  | rows ts =>
    rcases hp : processTuples lastTime (initWx cfg) ts with _ | ⟨wx', lt⟩
    · simp [cycle, hp] at h
    · by_cases hz : wx'.Timestamp = 0
      · simp [cycle, hp, hz] at h
      · have hwx : wx = wx' := by
          simp [cycle, hp, hz] at h
          exact h.symm
        subst hwx
        refine ⟨hz, fun sendOk' => ?_⟩
        have hlt : lt = wx.Timestamp :=
          processTuples_commit lastTime (initWx cfg) rfl ts wx lt hp hz
        simp [cycle, hp, hz, hlt]

/-- Claim C3 witness: a concrete transmitting cycle run with a failed send
still commits `lastTime = 3`. -/
theorem c3_witness :
    (cycle sampleConfig false 0 (.rows [⟨"humidity", 50, 3⟩]) false).newLastTime = 3 ∧
    (3 : ℤ) ≠ 0 := by
  have h50 : mround (50 : ℚ) = 50 := by norm_num [mround]
  have h : (cycle sampleConfig false 0 (.rows [⟨"humidity", 50, 3⟩]) false).sent =
      some
        { Lat := 40.1, Lon := -77.2, TypeStr := "wx", Timestamp := 3,
          Temp := unsetSentinel, Humidity := 50, SolarRad := unsetSentinel,
          WindDir := unsetSentinel, WindGust := unsetSentinel, WindSpeed := unsetSentinel } := by
    rw [cycle_rows_accept sampleConfig false 0 false _ _ (by decide) (by decide)]
    simp [List.foldl, applyField, initWx, Wx.Zero, sampleConfig, h50]
  exact ⟨(c3_commit_before_send_no_rollback sampleConfig false 0 _ false _ h).2 false,
    (c3_commit_before_send_no_rollback sampleConfig false 0 _ false _ h).1⟩

/-- Claim C4: the solar-radiation field is the rounded lux value divided by
126 with the quotient truncated to an integer (truncated integer division
`Int.tdiv` after rounding, not rounding of the quotient); `lux = 252` gives
2 and `lux = 0` gives 0.  The extra `solarConv 250 = 1` conjunct shows the
quotient (250/126 ≈ 1.98) is truncated rather than rounded. -/
theorem c4_solar_radiation_round_then_truncate :
    (∀ (wx : Wx) (lux : ℚ) (ts : ℤ),
      (applyField wx ⟨"light_lux", lux, ts⟩).SolarRad = solarConv lux) ∧
    (∀ lux : ℚ, solarConv lux = (mround lux).tdiv 126) ∧
    solarConv 252 = 2 ∧ solarConv 0 = 0 ∧ solarConv 250 = 1 := by
  refine ⟨fun wx lux ts => applyField_SolarRad_set wx ⟨"light_lux", lux, ts⟩ rfl, ?_, ?_, ?_, ?_⟩
  · intro lux
    rw [solarConv, show (126 : ℚ) = ((126 : ℕ) : ℚ) by norm_num,
      trunc_intCast_div (mround lux) 126 (by norm_num)]
    norm_num
  · norm_num [solarConv, trunc, mround]
  · norm_num [solarConv, trunc, mround]
  · norm_num [solarConv, trunc, mround]

/-- Claim C5: the temperature field is `round(C * 1.8 + 32)` Fahrenheit;
0 °C gives 32 and 100 °C gives 212. -/
theorem c5_temperature_celsius_to_fahrenheit :
    (∀ (wx : Wx) (c : ℚ) (ts : ℤ),
      (applyField wx ⟨"temperature_C", c, ts⟩).Temp = tempConv c) ∧
    (∀ c : ℚ, tempConv c = mround (c * 1.8 + 32)) ∧
    tempConv 0 = 32 ∧ tempConv 100 = 212 := by
  refine ⟨fun wx c ts => applyField_Temp_set wx ⟨"temperature_C", c, ts⟩ rfl,
    fun c => rfl, ?_, ?_⟩
  · norm_num [tempConv, mround]
  · norm_num [tempConv, mround]

/-- Claim C6: an empty tuple stream assembles an observation with every
numeric field at the unset sentinel and a zero timestamp; the cycle is then
suppressed with no transmission, `lastTime` unchanged, and no exit — it is a
normal (non-error) outcome of the same code path as any other cycle. -/
theorem c6_empty_stream_suppressed (cfg : Config) (once : Bool) (lastTime : ℤ)
    (sendOk : Bool) :
    cycle cfg once lastTime (.rows []) sendOk =
      { sent := none, newLastTime := lastTime, exited := false } ∧
    processTuples lastTime (initWx cfg) [] = some (initWx cfg, lastTime) ∧
    (initWx cfg).Timestamp = 0 ∧
    (initWx cfg).Temp = unsetSentinel ∧ (initWx cfg).Humidity = unsetSentinel ∧
    (initWx cfg).SolarRad = unsetSentinel ∧ (initWx cfg).WindDir = unsetSentinel ∧
    (initWx cfg).WindGust = unsetSentinel ∧ (initWx cfg).WindSpeed = unsetSentinel := by
  refine ⟨?_, rfl, rfl, rfl, rfl, rfl, rfl, rfl, rfl⟩
  simp [cycle, processTuples, initWx, Wx.Zero]

/-- Claim C7: a query error leaves the cycle with no observation emitted
(no partial observation is transmitted), `lastTime` unchanged, and no
process exit, so the scheduler proceeds to the next tick. -/
theorem c7_query_error_skips_cycle (cfg : Config) (once : Bool) (lastTime : ℤ)
    (sendOk : Bool) :
    cycle cfg once lastTime .queryError sendOk =
      { sent := none, newLastTime := lastTime, exited := false } := by
  simp [cycle, initWx, Wx.Zero]

/-- Claim C8: the process exits (with status 0, the only exit in the loop)
exactly when the `--once` flag is set, the send succeeded, and an
observation was transmitted; hence it never exits on a suppressed cycle or
a failed send, and with the flag off no finite run of the scheduler loop
ever exits on its own. -/
theorem c8_exit_only_on_once_success (cfg : Config) (lastTime : ℤ) (q : QueryResult) :
    (∀ once sendOk, (cycle cfg once lastTime q sendOk).exited = true ↔
      once = true ∧ sendOk = true ∧ (cycle cfg once lastTime q sendOk).sent.isSome = true) ∧
    (∀ inputs lastTime', (runLoop cfg false lastTime' inputs).2 = false) := by
  constructor
  · intro once sendOk
    cases q with
    | queryError => simp [cycle, initWx, Wx.Zero]
    | rows ts =>
      rcases hp : processTuples lastTime (initWx cfg) ts with _ | ⟨wx', lt⟩
      · simp [cycle, hp]
      · by_cases hz : wx'.Timestamp = 0
        · simp [cycle, hp, hz]
        · simp [cycle, hp, hz, Bool.and_eq_true, and_comm]
  · intro inputs lastTime'
    exact runLoop_no_exit cfg inputs lastTime'

/-- Claim C9: deduplication is equality-only, not monotonic — any non-zero
first timestamp distinct from `lastTime`, including a strictly older one, is
accepted: the observation is transmitted with that timestamp and `lastTime`
is set to it. -/
theorem c9_equality_only_dedup (cfg : Config) (once : Bool) (lastTime : ℤ)
    (sendOk : Bool) (tup : SampleTuple) (rest : List SampleTuple)
    (ht : tup.time ≠ 0) (hne : tup.time ≠ lastTime) :
    ∃ wx, (cycle cfg once lastTime (.rows (tup :: rest)) sendOk).sent = some wx ∧
      wx.Timestamp = tup.time ∧
      (cycle cfg once lastTime (.rows (tup :: rest)) sendOk).newLastTime = tup.time := by
  rw [cycle_rows_accept cfg once lastTime sendOk tup rest ht hne]
  exact ⟨_, rfl, by rw [foldl_Timestamp, applyField_Timestamp], rfl⟩

/-- Claim C9 witness: a timestamp (3) strictly older than `lastTime` (5) is
accepted and committed. -/
theorem c9_witness :
    (3 : ℤ) < 5 ∧
    (∃ wx, (cycle sampleConfig false 5 (.rows [⟨"humidity", 50, 3⟩]) true).sent = some wx ∧
      wx.Timestamp = 3 ∧
      (cycle sampleConfig false 5 (.rows [⟨"humidity", 50, 3⟩]) true).newLastTime = 3) :=
  ⟨by norm_num,
    c9_equality_only_dedup sampleConfig false 5 true ⟨"humidity", 50, 3⟩ [] (by decide) (by decide)⟩

/-- Claim C10: in an accepted cycle each numeric observation field equals
the fixed conversion applied to the value of the last tuple in the sequence
bearing that field name (the unset sentinel when no tuple does), regardless
of the tuples' own timestamps — later same-name tuples overwrite earlier
ones, and tuples after the first contribute even with differing timestamps. -/
theorem c10_last_tuple_wins_per_field (cfg : Config) (once : Bool) (lastTime : ℤ)
    (sendOk : Bool) (tup : SampleTuple) (rest : List SampleTuple)
    (ht : tup.time ≠ 0) (hne : tup.time ≠ lastTime) :
    ∃ wx, (cycle cfg once lastTime (.rows (tup :: rest)) sendOk).sent = some wx ∧
      wx.Temp = (lastVal "temperature_C" (tup :: rest)).elim unsetSentinel tempConv ∧
      wx.Humidity = (lastVal "humidity" (tup :: rest)).elim unsetSentinel humConv ∧
      wx.SolarRad = (lastVal "light_lux" (tup :: rest)).elim unsetSentinel solarConv ∧
      wx.WindDir = (lastVal "wind_dir_deg" (tup :: rest)).elim unsetSentinel dirConv ∧
      wx.WindGust = (lastVal "wind_max_m_s" (tup :: rest)).elim unsetSentinel windConv ∧
      wx.WindSpeed = (lastVal "wind_avg_m_s" (tup :: rest)).elim unsetSentinel windConv := by
  rw [cycle_rows_accept cfg once lastTime sendOk tup rest ht hne]
  refine ⟨_, rfl, ?_, ?_, ?_, ?_, ?_, ?_⟩
  · rw [← List.foldl_cons]
    exact foldl_lastVal _ _ _ applyField_Temp_set applyField_Temp_skip (tup :: rest) _
  · rw [← List.foldl_cons]
    exact foldl_lastVal _ _ _ applyField_Humidity_set applyField_Humidity_skip (tup :: rest) _
  · rw [← List.foldl_cons]
    exact foldl_lastVal _ _ _ applyField_SolarRad_set applyField_SolarRad_skip (tup :: rest) _
  · rw [← List.foldl_cons]
    exact foldl_lastVal _ _ _ applyField_WindDir_set applyField_WindDir_skip (tup :: rest) _
  · rw [← List.foldl_cons]
    exact foldl_lastVal _ _ _ applyField_WindGust_set applyField_WindGust_skip (tup :: rest) _
  · rw [← List.foldl_cons]
    exact foldl_lastVal _ _ _ applyField_WindSpeed_set applyField_WindSpeed_skip (tup :: rest) _

/-- Claim C10 witness: a second `temperature_C` tuple with value 0 and a
different timestamp (7 ≠ 5) still overwrites the first; the transmitted
temperature is `tempConv 0 = 32`. -/
theorem c10_witness :
    ∃ wx, (cycle sampleConfig false 0
        (.rows [⟨"temperature_C", 20, 5⟩, ⟨"temperature_C", 0, 7⟩]) true).sent = some wx ∧
      wx.Temp = 32 := by
  obtain ⟨wx, hs, hT, -⟩ := c10_last_tuple_wins_per_field sampleConfig false 0 true
    ⟨"temperature_C", 20, 5⟩ [⟨"temperature_C", 0, 7⟩] (by decide) (by decide)
  refine ⟨wx, hs, ?_⟩
  rw [hT]
  norm_num [lastVal, tempConv, mround]

end Influx2Aprs
